import Mathlib

/-!
Verification of the FFI bridge layer of `libsignal` (files
`rust/bridge/shared/src/ffi/mod.rs` and `rust/bridge/shared/src/lib.rs`).

The development is a shallow embedding of the bridge code:

* Raw pointers are natural numbers, with `0` playing the role of the null
  pointer.
* A heap of values of type `α` is a record `Heap α` holding the last address
  handed out (`next`), the contents of memory (`mem : Nat → α`, total, so that
  dereferencing a stale pointer reads whatever was last stored there, the way
  Rust's unchecked `&*p` does), and the list of currently live allocations
  (`live`).  `Box::new`/`Box::into_raw` is `Heap.alloc`, which always returns
  a fresh non-null address; `Box::from_raw` followed by dropping is
  `Heap.free`, which removes the address from `live` but does not scrub the
  memory contents.
* Caller memory holding pointer-sized out-parameter cells (handle slots,
  destination pointers, destination lengths) is a total map `Cells = Nat → Nat`
  from cell addresses to the machine word stored in the cell.
* A unit of work handed to `run_ffi_safe` either returns `Ok(())`, returns a
  classified error, or panics; `WorkResult` enumerates the three outcomes,
  and the totality of the Lean function models the fact that
  `std::panic::catch_unwind` never lets the panic escape the wrapper.
-/

/-- An error of the external `libsignal-protocol` library.  The library is an
opaque collaborator of the bridge; only the fact that it has a classification
is relevant, so it is modelled as an opaque code. -/
structure SignalProtocolError where
  code : Nat
deriving DecidableEq, Repr

/-- The boundary error type `SignalFfiError`.  Its defining module
(`ffi/error.rs`) is not part of the bridge sources; the three variants are the
ones `ffi/mod.rs` constructs (`Signal`, `NullPointer`, `UnexpectedPanic`),
which are exactly the three cases the spec requires at minimum.  The opaque
panic payload (`Box<dyn Any>`) is modelled as a number identifying it. -/
inductive SignalFfiError where
  | Signal (e : SignalProtocolError)
  | NullPointer
  | UnexpectedPanic (payload : Nat)
deriving DecidableEq, Repr

/-- A heap of values of type `α`: `next` is the last address handed out (so
every allocated address is positive and fresh), `mem` is the total contents of
memory, `live` the currently live allocations. -/
structure Heap (α : Type) where
  next : Nat
  mem : Nat → α
  live : List Nat

/-- `Box::into_raw(Box::new v)`: allocate `v` at a fresh non-null address. -/
def Heap.alloc {α : Type} (h : Heap α) (v : α) : Nat × Heap α :=
  let a := h.next + 1
  (a, ⟨a, fun x => if x = a then v else h.mem x, a :: h.live⟩)

/-- `Box::from_raw p` followed by dropping the box: the allocation stops
being live; the memory contents are not scrubbed. -/
def Heap.free {α : Type} (h : Heap α) (p : Nat) : Heap α :=
  ⟨h.next, h.mem, h.live.erase p⟩

/-- Caller memory of pointer-sized cells (handle slots and out-parameters). -/
def Cells : Type := Nat → Nat

/-- Writing a machine word through a cell pointer (`*p = v`). -/
def writeCell (c : Cells) (a v : Nat) : Cells :=
  fun x => if x = a then v else c x

/-- Outcome of one unit of work passed to `run_ffi_safe`: clean success,
classified failure, or abnormal termination (a panic with an opaque
payload). -/
inductive WorkResult where
  | ok
  | err (e : SignalFfiError)
  | panicked (payload : Nat)
deriving DecidableEq, Repr

/-- Embedding of `run_ffi_safe` (ffi/mod.rs, lines 12-25).  The first `match`
is the `catch_unwind` classification of the outcome (`Ok(Ok(()))`,
`Ok(Err(e))`, `Err(r)`); the second turns success into the null pointer and
any failure into `Box::into_raw(Box::new e)` on the error heap.  Totality of
this function models the guarantee that a panic never propagates past the
wrapper. -/
def run_ffi_safe (f : WorkResult) (eh : Heap SignalFfiError) :
    Nat × Heap SignalFfiError :=
  let result : Except SignalFfiError Unit :=
    match f with
    | .ok => .ok ()
    | .err e => .error e
    | .panicked r => .error (.UnexpectedPanic r)
  match result with
  | .ok () => (0, eh)
  | .error e => eh.alloc e

/-- Conversion of the `Result<(), SignalFfiError>` a generated closure returns
into the `WorkResult` fed to `run_ffi_safe` (generated closures do not panic
on their own). -/
def toWork (r : Except SignalFfiError Unit) : WorkResult :=
  match r with
  | .ok () => .ok
  | .error e => .err e

/-- Embedding of `box_object` (ffi/mod.rs, lines 27-44): given the address `p`
of a handle slot in caller memory and a fallible construction result, fail
with `NullPointer` if `p` is null, otherwise store a fresh heap handle (on
success) or the null handle (on failure) into the slot. -/
def box_object {T : Type} (p : Nat) (obj : Except SignalProtocolError T)
    (cells : Cells) (h : Heap T) :
    Except SignalFfiError Unit × Cells × Heap T :=
  if p = 0 then (.error .NullPointer, cells, h)
  else
    match obj with
    | .ok o =>
        let (a, h') := h.alloc o
        (.ok (), writeCell cells p a, h')
    | .error e => (.error (.Signal e), writeCell cells p 0, h)

/-- Embedding of `native_handle_cast` (ffi/mod.rs, lines 46-52): fail with
`NullPointer` on the null handle, otherwise dereference.  The dereference
reads memory unconditionally (`&*handle` performs no liveness check), which
the total `mem` field makes direct. -/
def native_handle_cast {T : Type} (handle : Nat) (h : Heap T) :
    Except SignalFfiError T :=
  if handle = 0 then .error .NullPointer
  else .ok (h.mem handle)

/-- Embedding of `write_bytearray_to` (ffi/mod.rs, lines 54-75): check both
out-parameter cells are non-null, then on success allocate the byte buffer
and write its length into `*out_len` and its address into `*out` (in that
order, as the source does); on failure wrap the library error. -/
def write_bytearray_to (out out_len : Nat)
    (value : Except SignalProtocolError (List Nat))
    (cells : Cells) (bh : Heap (List Nat)) :
    Except SignalFfiError Unit × Cells × Heap (List Nat) :=
  if out = 0 ∨ out_len = 0 then (.error .NullPointer, cells, bh)
  else
    match value with
    | .ok v =>
        let (a, bh') := bh.alloc v
        (.ok (), writeCell (writeCell cells out_len v.length) out a, bh')
    | .error e => (.error (.Signal e), cells, bh)

/-- Embedding of `std::slice::from_raw_parts data data_len`: the `data_len`
bytes of foreign memory `dmem` starting at address `data`. -/
def from_raw_parts (dmem : Nat → Nat) (data data_len : Nat) : List Nat :=
  (List.range data_len).map (fun i => dmem (data + i))

/-- Embedding of the function emitted by `ffi_bridge_destroy` (ffi/mod.rs,
lines 77-100): inside `run_ffi_safe`, free the handle when it is non-null,
and return `Ok(())` either way. -/
def ffi_bridge_destroy {T : Type} (p : Nat) (h : Heap T)
    (eh : Heap SignalFfiError) : Nat × Heap T × Heap SignalFfiError :=
  let h' := if p ≠ 0 then h.free p else h
  let (ep, eh') := run_ffi_safe (toWork (.ok ())) eh
  (ep, h', eh')

/-- Embedding of the function emitted by `ffi_bridge_deserialize` (ffi/mod.rs,
lines 102-128), parameterized by the internal deserialization routine
`$typ::$fn`: inside `run_ffi_safe`, fail with `NullPointer` if the input
buffer pointer is null, otherwise read `data_len` bytes and route the fallible
result through `box_object` into the handle slot `p`. -/
def ffi_bridge_deserialize {T : Type}
    (deser : List Nat → Except SignalProtocolError T)
    (p data data_len : Nat) (dmem : Nat → Nat)
    (cells : Cells) (h : Heap T) (eh : Heap SignalFfiError) :
    Nat × Cells × Heap T × Heap SignalFfiError :=
  let (r, cells', h') :=
    if data = 0 then (Except.error SignalFfiError.NullPointer, cells, h)
    else
      let bytes := from_raw_parts dmem data data_len
      box_object p (deser bytes) cells h
  let (ep, eh') := run_ffi_safe (toWork r) eh
  (ep, cells', h', eh')

/-- Embedding of the function emitted by `ffi_bridge_get_bytearray`
(ffi/mod.rs, lines 130-152), parameterized by the extraction expression
`$body`: inside `run_ffi_safe`, borrow the object via `native_handle_cast`
(the `?` operator returns its error immediately), apply the extraction, and
route the result through `write_bytearray_to`. -/
def ffi_bridge_get_bytearray {T : Type}
    (body : T → Except SignalProtocolError (List Nat))
    (obj out out_len : Nat)
    (h : Heap T) (cells : Cells) (bh : Heap (List Nat))
    (eh : Heap SignalFfiError) :
    Nat × Cells × Heap (List Nat) × Heap SignalFfiError :=
  let (r, cells', bh') :=
    match native_handle_cast obj h with
    | .error e => (Except.error e, cells, bh)
    | .ok o => write_bytearray_to out out_len (body o) cells bh
  let (ep, eh') := run_ffi_safe (toWork r) eh
  (ep, cells', bh', eh')

/-- Classification `run_ffi_safe` applies to a failing outcome: a returned
error is kept, a panic payload is wrapped as `UnexpectedPanic`; a clean
success is not a failure. -/
def classify_failure (w : WorkResult) : Option SignalFfiError :=
  match w with
  | .ok => none
  | .err e => some e
  | .panicked r => some (.UnexpectedPanic r)

/-- C1: if the unit of work passed to `run_ffi_safe` panics, the wrapper
returns a non-null pointer to a live heap-allocated boundary error classified
as `UnexpectedPanic`; the panic does not propagate (the wrapper returns
normally, which the totality of `run_ffi_safe` models). -/
theorem run_ffi_safe_panic_contained (r : Nat) (eh : Heap SignalFfiError) :
    (run_ffi_safe (.panicked r) eh).1 ≠ 0 ∧
    (run_ffi_safe (.panicked r) eh).2.mem (run_ffi_safe (.panicked r) eh).1 =
      .UnexpectedPanic r ∧
    (run_ffi_safe (.panicked r) eh).1 ∈ (run_ffi_safe (.panicked r) eh).2.live := by
  simp [run_ffi_safe, Heap.alloc]

/-- C2: `run_ffi_safe` returns the null pointer exactly when the work returns
a clean success; on any failing outcome it heap-allocates the classified
boundary error and returns its non-null address. -/
theorem run_ffi_safe_null_iff_success (w : WorkResult) (eh : Heap SignalFfiError) :
    ((run_ffi_safe w eh).1 = 0 ↔ w = .ok) ∧
    (∀ e, classify_failure w = some e →
      (run_ffi_safe w eh).1 ≠ 0 ∧
      (run_ffi_safe w eh).2.mem (run_ffi_safe w eh).1 = e ∧
      (run_ffi_safe w eh).1 ∈ (run_ffi_safe w eh).2.live) := by
  cases w <;> simp [run_ffi_safe, classify_failure, Heap.alloc]

/-- Witness for C2 at the concrete failing outcome `err NullPointer`. -/
theorem run_ffi_safe_null_iff_success_witness :
    (run_ffi_safe (.err .NullPointer) ⟨0, fun _ => .NullPointer, []⟩).1 ≠ 0 ∧
    (run_ffi_safe (.err .NullPointer) ⟨0, fun _ => .NullPointer, []⟩).2.mem
      (run_ffi_safe (.err .NullPointer) ⟨0, fun _ => .NullPointer, []⟩).1 =
      .NullPointer := by
  have h := run_ffi_safe_null_iff_success (.err .NullPointer)
    ⟨0, fun _ => .NullPointer, []⟩
  exact ⟨(h.2 .NullPointer rfl).1, (h.2 .NullPointer rfl).2.1⟩

/-- C3: a generated destroy function always returns the null error pointer;
on a null handle it performs no operation, and on a non-null handle it
releases the handle's backing allocation (the handle is no longer live
afterwards, provided the live list has no duplicates). -/
theorem ffi_bridge_destroy_spec {T : Type} (p : Nat) (h : Heap T)
    (eh : Heap SignalFfiError) :
    (ffi_bridge_destroy p h eh).1 = 0 ∧
    (ffi_bridge_destroy p h eh).2.2 = eh ∧
    (p = 0 → (ffi_bridge_destroy p h eh).2.1 = h) ∧
    (p ≠ 0 → (ffi_bridge_destroy p h eh).2.1 = h.free p ∧
      (h.live.Nodup → p ∉ ((ffi_bridge_destroy p h eh).2.1).live)) := by
  refine ⟨rfl, rfl, ?_, ?_⟩
  · intro hp
    simp [ffi_bridge_destroy, hp]
  · intro hp
    refine ⟨by simp [ffi_bridge_destroy, hp], ?_⟩
    intro hnd
    simp [ffi_bridge_destroy, hp, Heap.free]
    exact hnd.not_mem_erase

/-- Witness for C3 at a concrete non-null handle over a two-object heap. -/
theorem ffi_bridge_destroy_spec_witness :
    (ffi_bridge_destroy 2 (⟨2, fun _ => (0 : Nat), [2, 1]⟩ : Heap Nat)
      ⟨0, fun _ => .NullPointer, []⟩).1 = 0 ∧
    (2 : Nat) ∉ ((ffi_bridge_destroy 2 (⟨2, fun _ => (0 : Nat), [2, 1]⟩ : Heap Nat)
      ⟨0, fun _ => .NullPointer, []⟩).2.1).live := by
  have h := ffi_bridge_destroy_spec 2 (⟨2, fun _ => (0 : Nat), [2, 1]⟩ : Heap Nat)
    ⟨0, fun _ => .NullPointer, []⟩
  exact ⟨h.1, (h.2.2.2 (by decide)).2 (by decide)⟩

/-- C4: a generated deserialize function rejects a null input-buffer pointer
with a heap-allocated `NullPointer` boundary error for every declared length,
touching neither the handle slot nor the object heap; a non-null pointer with
zero declared length is not rejected: the run is exactly the internal routine
applied to the empty byte sequence, routed through `box_object` and
`run_ffi_safe`. -/
theorem ffi_bridge_deserialize_null_buffer {T : Type}
    (deser : List Nat → Except SignalProtocolError T)
    (p data data_len : Nat) (dmem : Nat → Nat)
    (cells : Cells) (h : Heap T) (eh : Heap SignalFfiError) :
    (data = 0 →
      (ffi_bridge_deserialize deser p data data_len dmem cells h eh).1 ≠ 0 ∧
      (ffi_bridge_deserialize deser p data data_len dmem cells h eh).2.2.2.mem
        (ffi_bridge_deserialize deser p data data_len dmem cells h eh).1 =
        .NullPointer ∧
      (ffi_bridge_deserialize deser p data data_len dmem cells h eh).2.1 = cells ∧
      (ffi_bridge_deserialize deser p data data_len dmem cells h eh).2.2.1 = h) ∧
    (data ≠ 0 →
      ffi_bridge_deserialize deser p data 0 dmem cells h eh =
        (let (r, cells', h') := box_object p (deser []) cells h
         let (ep, eh') := run_ffi_safe (toWork r) eh
         (ep, cells', h', eh'))) := by
  constructor
  · intro hd
    simp [ffi_bridge_deserialize, hd, run_ffi_safe, toWork, Heap.alloc]
  · intro hd
    simp [ffi_bridge_deserialize, hd, from_raw_parts]

/-- Witness for C4: a concrete null buffer is rejected, and a concrete
non-null buffer of declared length zero reaches the internal routine. -/
theorem ffi_bridge_deserialize_null_buffer_witness :
    (ffi_bridge_deserialize (fun _ => .ok (0 : Nat)) 5 0 9 (fun _ => 0)
      (fun _ => 0) ⟨0, fun _ => 0, []⟩ ⟨0, fun _ => .NullPointer, []⟩).1 ≠ 0 ∧
    ffi_bridge_deserialize (fun _ => .ok (0 : Nat)) 5 7 0 (fun _ => 0)
      (fun _ => 0) ⟨0, fun _ => 0, []⟩ ⟨0, fun _ => .NullPointer, []⟩ =
      (let (r, cells', h') := box_object 5 (Except.ok (0 : Nat))
          (fun _ => 0) ⟨0, fun _ => 0, []⟩
       let (ep, eh') := run_ffi_safe (toWork r) ⟨0, fun _ => .NullPointer, []⟩
       (ep, cells', h', eh')) := by
  constructor
  · exact ((ffi_bridge_deserialize_null_buffer (fun _ => .ok (0 : Nat)) 5 0 9
      (fun _ => 0) (fun _ => 0) ⟨0, fun _ => 0, []⟩
      ⟨0, fun _ => .NullPointer, []⟩).1 rfl).1
  · exact (ffi_bridge_deserialize_null_buffer (fun _ => .ok (0 : Nat)) 5 7 0
      (fun _ => 0) (fun _ => 0) ⟨0, fun _ => 0, []⟩
      ⟨0, fun _ => .NullPointer, []⟩).2 (by decide)

/-- C9: a generated deserialize function with a null destination handle slot
returns a heap-allocated `NullPointer` boundary error for every non-null
input buffer and every declared length (the check is performed by
`box_object`), leaving caller cells and the object heap unchanged. -/
theorem ffi_bridge_deserialize_null_slot {T : Type}
    (deser : List Nat → Except SignalProtocolError T)
    (data data_len : Nat) (dmem : Nat → Nat)
    (cells : Cells) (h : Heap T) (eh : Heap SignalFfiError)
    (hd : data ≠ 0) :
    (ffi_bridge_deserialize deser 0 data data_len dmem cells h eh).1 ≠ 0 ∧
    (ffi_bridge_deserialize deser 0 data data_len dmem cells h eh).2.2.2.mem
      (ffi_bridge_deserialize deser 0 data data_len dmem cells h eh).1 =
      .NullPointer ∧
    (ffi_bridge_deserialize deser 0 data data_len dmem cells h eh).2.1 = cells ∧
    (ffi_bridge_deserialize deser 0 data data_len dmem cells h eh).2.2.1 = h := by
  simp [ffi_bridge_deserialize, hd, box_object, run_ffi_safe, toWork, Heap.alloc]

/-- Witness for C9 at a concrete non-null buffer and a null slot. -/
theorem ffi_bridge_deserialize_null_slot_witness :
    (ffi_bridge_deserialize (fun _ => .ok (0 : Nat)) 0 7 3 (fun _ => 0)
      (fun _ => 0) ⟨0, fun _ => 0, []⟩ ⟨0, fun _ => .NullPointer, []⟩).1 ≠ 0 ∧
    (ffi_bridge_deserialize (fun _ => .ok (0 : Nat)) 0 7 3 (fun _ => 0)
      (fun _ => 0) ⟨0, fun _ => 0, []⟩ ⟨0, fun _ => .NullPointer, []⟩).2.2.2.mem
      (ffi_bridge_deserialize (fun _ => .ok (0 : Nat)) 0 7 3 (fun _ => 0)
        (fun _ => 0) ⟨0, fun _ => 0, []⟩ ⟨0, fun _ => .NullPointer, []⟩).1 =
      .NullPointer := by
  have h := ffi_bridge_deserialize_null_slot (fun _ => .ok (0 : Nat)) 7 3
    (fun _ => 0) (fun _ => 0) ⟨0, fun _ => 0, []⟩
    ⟨0, fun _ => .NullPointer, []⟩ (by decide)
  exact ⟨h.1, h.2.1⟩

/-- C5: `box_object` fails with `NullPointer` and changes nothing when the
destination slot is null; otherwise it writes exactly one full value into the
slot: a fresh live handle to the constructed object on success, the null
handle on failure (returning the classified library error), and it never
touches any other cell. -/
theorem box_object_spec {T : Type} (p : Nat) (obj : Except SignalProtocolError T)
    (cells : Cells) (h : Heap T) :
    (p = 0 → box_object p obj cells h = (.error .NullPointer, cells, h)) ∧
    (p ≠ 0 → ∀ o, obj = .ok o →
      (box_object p obj cells h).1 = .ok () ∧
      (box_object p obj cells h).2.1 p ≠ 0 ∧
      (box_object p obj cells h).2.2.mem ((box_object p obj cells h).2.1 p) = o ∧
      (box_object p obj cells h).2.1 p ∈ (box_object p obj cells h).2.2.live) ∧
    (p ≠ 0 → ∀ e, obj = .error e →
      (box_object p obj cells h).1 = .error (.Signal e) ∧
      (box_object p obj cells h).2.1 p = 0 ∧
      (box_object p obj cells h).2.2 = h) ∧
    (∀ q, q ≠ p → (box_object p obj cells h).2.1 q = cells q) := by
  refine ⟨?_, ?_, ?_, ?_⟩
  · intro hp
    simp [box_object, hp]
  · intro hp o ho
    subst ho
    simp [box_object, hp, Heap.alloc, writeCell]
  · intro hp e he
    subst he
    simp [box_object, hp, writeCell]
  · intro q hq
    by_cases hp : p = 0
    · simp [box_object, hp]
    · cases obj <;> simp [box_object, hp, writeCell, hq]

/-- Witness for C5 at a concrete non-null slot and a successful
construction. -/
theorem box_object_spec_witness :
    (box_object 5 (.ok (7 : Nat)) (fun _ => 0) ⟨0, fun _ => 0, []⟩).1 = .ok () ∧
    (box_object 5 (.ok (7 : Nat)) (fun _ => 0) ⟨0, fun _ => 0, []⟩).2.1 5 ≠ 0 ∧
    (box_object 5 (.ok (7 : Nat)) (fun _ => 0) ⟨0, fun _ => 0, []⟩).2.2.mem
      ((box_object 5 (.ok (7 : Nat)) (fun _ => 0) ⟨0, fun _ => 0, []⟩).2.1 5) = 7 := by
  have h := (box_object_spec 5 (.ok (7 : Nat)) (fun _ => 0)
    ⟨0, fun _ => 0, []⟩).2.1 (by decide) 7 rfl
  exact ⟨h.1, h.2.1, h.2.2.1⟩

/-- C10: on a failed byte-producing result with both out-parameter cells
non-null, `write_bytearray_to` returns the classified library error and
leaves caller cells and the buffer heap completely unchanged; when either
out-parameter cell is null it returns `NullPointer`, again changing
nothing. -/
theorem write_bytearray_to_frame (out out_len : Nat) (e : SignalProtocolError)
    (cells : Cells) (bh : Heap (List Nat)) :
    (out ≠ 0 → out_len ≠ 0 →
      write_bytearray_to out out_len (.error e) cells bh =
        (.error (.Signal e), cells, bh)) ∧
    (out = 0 ∨ out_len = 0 →
      ∀ v, write_bytearray_to out out_len v cells bh =
        (.error .NullPointer, cells, bh)) := by
  constructor
  · intro ho hl
    simp [write_bytearray_to, ho, hl]
  · intro hnull v
    simp [write_bytearray_to, hnull]

/-- Witness for C10 at concrete non-null out-parameters and a concrete failed
result, plus the concrete null path. -/
theorem write_bytearray_to_frame_witness :
    write_bytearray_to 3 4 (.error ⟨11⟩) (fun _ => 0) ⟨0, fun _ => [], []⟩ =
      (.error (.Signal ⟨11⟩), (fun _ => 0 : Cells), ⟨0, fun _ => [], []⟩) ∧
    write_bytearray_to 0 4 (.ok [1, 2]) (fun _ => 0) ⟨0, fun _ => [], []⟩ =
      (.error .NullPointer, (fun _ => 0 : Cells), ⟨0, fun _ => [], []⟩) := by
  constructor
  · exact (write_bytearray_to_frame 3 4 ⟨11⟩ (fun _ => 0)
      ⟨0, fun _ => [], []⟩).1 (by decide) (by decide)
  · exact (write_bytearray_to_frame 0 4 ⟨11⟩ (fun _ => 0)
      ⟨0, fun _ => [], []⟩).2 (Or.inl rfl) (.ok [1, 2])

/-- C6: a generated get-byte-array function returns a heap-allocated
`NullPointer` boundary error whenever the handle, the destination pointer
cell, or the destination length cell is null, and writes through neither
out-parameter (all caller cells and the buffer heap are unchanged); so the
out-parameters carry values written by the call only when the returned error
pointer is null. -/
theorem ffi_bridge_get_bytearray_null_args {T : Type}
    (body : T → Except SignalProtocolError (List Nat))
    (obj out out_len : Nat) (h : Heap T) (cells : Cells)
    (bh : Heap (List Nat)) (eh : Heap SignalFfiError)
    (hnull : obj = 0 ∨ out = 0 ∨ out_len = 0) :
    (ffi_bridge_get_bytearray body obj out out_len h cells bh eh).1 ≠ 0 ∧
    (ffi_bridge_get_bytearray body obj out out_len h cells bh eh).2.2.2.mem
      (ffi_bridge_get_bytearray body obj out out_len h cells bh eh).1 =
      .NullPointer ∧
    (ffi_bridge_get_bytearray body obj out out_len h cells bh eh).2.1 = cells ∧
    (ffi_bridge_get_bytearray body obj out out_len h cells bh eh).2.2.1 = bh := by
  rcases hnull with hobj | hrest
  · simp [ffi_bridge_get_bytearray, native_handle_cast, hobj, run_ffi_safe,
      toWork, Heap.alloc]
  · by_cases hobj : obj = 0
    · simp [ffi_bridge_get_bytearray, native_handle_cast, hobj, run_ffi_safe,
        toWork, Heap.alloc]
    · simp [ffi_bridge_get_bytearray, native_handle_cast, hobj,
        write_bytearray_to, hrest, run_ffi_safe, toWork, Heap.alloc]

/-- Witness for C6: a non-null handle with a null destination-length cell is
rejected and the destination-pointer cell is not written. -/
theorem ffi_bridge_get_bytearray_null_args_witness :
    (ffi_bridge_get_bytearray (fun n => .ok [n]) 3 4 0
      ⟨3, fun _ => (9 : Nat), [3]⟩ (fun _ => 0) ⟨0, fun _ => [], []⟩
      ⟨0, fun _ => .NullPointer, []⟩).1 ≠ 0 ∧
    (ffi_bridge_get_bytearray (fun n => .ok [n]) 3 4 0
      ⟨3, fun _ => (9 : Nat), [3]⟩ (fun _ => 0) ⟨0, fun _ => [], []⟩
      ⟨0, fun _ => .NullPointer, []⟩).2.1 = (fun _ => 0 : Cells) := by
  have h := ffi_bridge_get_bytearray_null_args (fun n => .ok [n]) 3 4 0
    ⟨3, fun _ => (9 : Nat), [3]⟩ (fun _ => 0) ⟨0, fun _ => [], []⟩
    ⟨0, fun _ => .NullPointer, []⟩ (Or.inr (Or.inr rfl))
  exact ⟨h.1, h.2.2.1⟩

/-- C7: the serialize-after-deserialize round trip across the bridge.
Modelled from the spec: the object codec itself (e.g. `PublicKey::deserialize`
and `PublicKey::serialize`) lives in the external `libsignal-protocol`
library, outside the bridge sources; per the spec's collaborator contract a
byte sequence produced by `serialize` deserializes back to the same object,
which is the hypothesis `hrt`.  Under it, deserializing a previously
serialized byte sequence through the generated deserialize function succeeds
(null error pointer), and re-serializing the resulting handle through the
generated get-byte-array function writes a buffer byte-identical to the
original sequence, with its exact length. -/
theorem serialize_deserialize_roundtrip {T : Type}
    (ser : T → List Nat) (deser : List Nat → Except SignalProtocolError T)
    (hrt : ∀ t, deser (ser t) = .ok t)
    (t0 : T) (p data out out_len : Nat) (dmem : Nat → Nat)
    (cells : Cells) (h : Heap T) (bh : Heap (List Nat))
    (eh : Heap SignalFfiError)
    (hp : p ≠ 0) (hd : data ≠ 0)
    (hmem : from_raw_parts dmem data (ser t0).length = ser t0)
    (ho : out ≠ 0) (hol : out_len ≠ 0) (hne : out ≠ out_len) :
    (ffi_bridge_deserialize deser p data (ser t0).length dmem cells h eh).1 = 0 ∧
    (let d := ffi_bridge_deserialize deser p data (ser t0).length dmem cells h eh
     let g := ffi_bridge_get_bytearray (fun t => Except.ok (ser t)) (d.2.1 p)
       out out_len d.2.2.1 d.2.1 bh d.2.2.2
     g.1 = 0 ∧ g.2.2.1.mem (g.2.1 out) = ser t0 ∧
       g.2.1 out_len = (ser t0).length) := by
  have hne' : out_len ≠ out := Ne.symm hne
  constructor
  · simp [ffi_bridge_deserialize, hd, hmem, hrt, box_object, hp, Heap.alloc,
      run_ffi_safe, toWork]
  · simp [ffi_bridge_deserialize, ffi_bridge_get_bytearray, hd, hmem, hrt,
      box_object, hp, Heap.alloc, run_ffi_safe, toWork, native_handle_cast,
      write_bytearray_to, ho, hol, hne, hne', writeCell]

/-- Concrete one-byte codec used to witness the round-trip theorem. -/
def serCW : Nat → List Nat := fun n => [n]

/-- Concrete deserializer matching `serCW`: accepts exactly one byte. -/
def deserCW : List Nat → Except SignalProtocolError Nat :=
  fun l =>
    match l with
    | [x] => .ok x
    | _ => .error ⟨0⟩

/-- Witness for C7 at the concrete codec `serCW`/`deserCW`, object `42`,
buffer address `10`, slot `1`, out-parameters `2` and `3`. -/
theorem serialize_deserialize_roundtrip_witness :
    (ffi_bridge_deserialize deserCW 1 10 (serCW 42).length
      (fun x => if x = 10 then 42 else 0) (fun _ => 0) ⟨0, fun _ => 0, []⟩
      ⟨0, fun _ => .NullPointer, []⟩).1 = 0 ∧
    (let d := ffi_bridge_deserialize deserCW 1 10 (serCW 42).length
        (fun x => if x = 10 then 42 else 0) (fun _ => 0) ⟨0, fun _ => 0, []⟩
        ⟨0, fun _ => .NullPointer, []⟩
     let g := ffi_bridge_get_bytearray (fun t => Except.ok (serCW t)) (d.2.1 1)
       2 3 d.2.2.1 d.2.1 ⟨0, fun _ => [], []⟩ d.2.2.2
     g.1 = 0 ∧ g.2.2.1.mem (g.2.1 2) = serCW 42 ∧
       g.2.1 3 = (serCW 42).length) :=
  serialize_deserialize_roundtrip serCW deserCW (fun _ => rfl) 42 1 10 2 3
    (fun x => if x = 10 then 42 else 0) (fun _ => 0) ⟨0, fun _ => 0, []⟩
    ⟨0, fun _ => [], []⟩ ⟨0, fun _ => .NullPointer, []⟩
    (by decide) (by decide) (by decide) (by decide) (by decide) (by decide)

/-- Construction site of a boundary error value, for auditing where in the
source each `SignalFfiError` is built: inside `run_ffi_safe` itself
(`wrapper`, the `UnexpectedPanic` case), inside one of the three ownership
primitives, or textually inside the body a generator macro emits
(`generatedBody`). -/
inductive Site where
  | wrapper
  | primBoxObject
  | primHandleCast
  | primWriteBytes
  | generatedBody
deriving DecidableEq, Repr

/-- A boundary error together with the site that constructed it. -/
abbrev TaggedError := SignalFfiError × Site

/-- Work outcome for the site-instrumented model; a classified failure
carries its construction site. -/
inductive WorkResultT where
  | ok
  | err (e : TaggedError)
  | panicked (payload : Nat)
deriving DecidableEq, Repr

/-- Site-instrumented `run_ffi_safe`: identical to `run_ffi_safe` except that
the stored error carries its construction site; the `UnexpectedPanic` error
is constructed by the wrapper itself (ffi/mod.rs line 18). -/
def run_ffi_safeT (f : WorkResultT) (eh : Heap TaggedError) :
    Nat × Heap TaggedError :=
  let result : Except TaggedError Unit :=
    match f with
    | .ok => .ok ()
    | .err e => .error e
    | .panicked r => .error (.UnexpectedPanic r, .wrapper)
  match result with
  | .ok () => (0, eh)
  | .error e => eh.alloc e

/-- Conversion of a tagged closure result into a tagged work outcome. -/
def toWorkT (r : Except TaggedError Unit) : WorkResultT :=
  match r with
  | .ok () => .ok
  | .error e => .err e

/-- Site-instrumented `box_object`: both of its `Err(...)` constructions
(ffi/mod.rs lines 32 and 41) are inside the primitive. -/
def box_objectT {T : Type} (p : Nat) (obj : Except SignalProtocolError T)
    (cells : Cells) (h : Heap T) :
    Except TaggedError Unit × Cells × Heap T :=
  if p = 0 then (.error (.NullPointer, .primBoxObject), cells, h)
  else
    match obj with
    | .ok o =>
        let (a, h') := h.alloc o
        (.ok (), writeCell cells p a, h')
    | .error e => (.error (.Signal e, .primBoxObject), writeCell cells p 0, h)

/-- Site-instrumented `native_handle_cast`: its `Err(...)` construction
(ffi/mod.rs line 48) is inside the primitive. -/
def native_handle_castT {T : Type} (handle : Nat) (h : Heap T) :
    Except TaggedError T :=
  if handle = 0 then .error (.NullPointer, .primHandleCast)
  else .ok (h.mem handle)

/-- Site-instrumented `write_bytearray_to`: both of its `Err(...)`
constructions (ffi/mod.rs lines 60 and 73) are inside the primitive. -/
def write_bytearray_toT (out out_len : Nat)
    (value : Except SignalProtocolError (List Nat))
    (cells : Cells) (bh : Heap (List Nat)) :
    Except TaggedError Unit × Cells × Heap (List Nat) :=
  if out = 0 ∨ out_len = 0 then (.error (.NullPointer, .primWriteBytes), cells, bh)
  else
    match value with
    | .ok v =>
        let (a, bh') := bh.alloc v
        (.ok (), writeCell (writeCell cells out_len v.length) out a, bh')
    | .error e => (.error (.Signal e, .primWriteBytes), cells, bh)

/-- Site-instrumented generated destroy function: its closure constructs no
error at all. -/
def ffi_bridge_destroyT {T : Type} (p : Nat) (h : Heap T)
    (eh : Heap TaggedError) : Nat × Heap T × Heap TaggedError :=
  let h' := if p ≠ 0 then h.free p else h
  let (ep, eh') := run_ffi_safeT (toWorkT (.ok ())) eh
  (ep, h', eh')

/-- Site-instrumented generated deserialize function: the `NullPointer` error
of the null input-buffer check is constructed textually inside the emitted
function body (ffi/mod.rs line 115), hence tagged `generatedBody`; every
other error comes from `box_objectT`. -/
def ffi_bridge_deserializeT {T : Type}
    (deser : List Nat → Except SignalProtocolError T)
    (p data data_len : Nat) (dmem : Nat → Nat)
    (cells : Cells) (h : Heap T) (eh : Heap TaggedError) :
    Nat × Cells × Heap T × Heap TaggedError :=
  let (r, cells', h') :=
    if data = 0 then
      (Except.error (SignalFfiError.NullPointer, Site.generatedBody), cells, h)
    else
      let bytes := from_raw_parts dmem data data_len
      box_objectT p (deser bytes) cells h
  let (ep, eh') := run_ffi_safeT (toWorkT r) eh
  (ep, cells', h', eh')

/-- Site-instrumented generated get-byte-array function: every error comes
from `native_handle_castT` or `write_bytearray_toT`. -/
def ffi_bridge_get_bytearrayT {T : Type}
    (body : T → Except SignalProtocolError (List Nat))
    (obj out out_len : Nat)
    (h : Heap T) (cells : Cells) (bh : Heap (List Nat))
    (eh : Heap TaggedError) :
    Nat × Cells × Heap (List Nat) × Heap TaggedError :=
  let (r, cells', bh') :=
    match native_handle_castT obj h with
    | .error e => (Except.error e, cells, bh)
    | .ok o => write_bytearray_toT out out_len (body o) cells bh
  let (ep, eh') := run_ffi_safeT (toWorkT r) eh
  (ep, cells', bh', eh')

/-- Counterexample to C8 as stated: a concrete call of the generated
deserialize function with a null input buffer returns, across the boundary, a
heap-allocated boundary error whose construction site is the generated
function body itself (the `Err(SignalFfiError::NullPointer)` written at
ffi/mod.rs line 115, inside the emitted function), not the wrapper or an
ownership primitive. -/
theorem boundary_error_site_counterexample :
    (ffi_bridge_deserializeT (fun _ => .ok (0 : Nat)) 1 0 4 (fun _ => 0)
      (fun _ => 0) ⟨0, fun _ => 0, []⟩
      ⟨0, fun _ => (.NullPointer, .wrapper), []⟩).1 ≠ 0 ∧
    (ffi_bridge_deserializeT (fun _ => .ok (0 : Nat)) 1 0 4 (fun _ => 0)
      (fun _ => 0) ⟨0, fun _ => 0, []⟩
      ⟨0, fun _ => (.NullPointer, .wrapper), []⟩).2.2.2.mem
      (ffi_bridge_deserializeT (fun _ => .ok (0 : Nat)) 1 0 4 (fun _ => 0)
        (fun _ => 0) ⟨0, fun _ => 0, []⟩
        ⟨0, fun _ => (.NullPointer, .wrapper), []⟩).1 =
      (.NullPointer, .generatedBody) := by
  exact ⟨by decide, rfl⟩

/-- C8 (amended): every boundary error returned across the boundary is
constructed inside the panic-safe wrapper or the ownership-transfer
primitives, with a single exception: the generated deserialize body itself
constructs the `NullPointer` error of its null input-buffer check.  Spelled
out: a generated destroy function returns no error at all; every error a
generated get-byte-array function returns originates in the primitives; and
the only error a generated deserialize function returns whose construction
site is the generated body is the `NullPointer` error of the `data = null`
check. -/
theorem boundary_error_construction_sites {T : Type} :
    (∀ (p : Nat) (h : Heap T) (eh : Heap TaggedError),
      (ffi_bridge_destroyT p h eh).1 = 0) ∧
    (∀ (body : T → Except SignalProtocolError (List Nat))
      (obj out out_len : Nat) (h : Heap T) (cells : Cells)
      (bh : Heap (List Nat)) (eh : Heap TaggedError),
      (ffi_bridge_get_bytearrayT body obj out out_len h cells bh eh).1 ≠ 0 →
      ((ffi_bridge_get_bytearrayT body obj out out_len h cells bh eh).2.2.2.mem
        (ffi_bridge_get_bytearrayT body obj out out_len h cells bh eh).1).2 ≠
        Site.generatedBody) ∧
    (∀ (deser : List Nat → Except SignalProtocolError T)
      (p data data_len : Nat) (dmem : Nat → Nat) (cells : Cells)
      (h : Heap T) (eh : Heap TaggedError),
      (ffi_bridge_deserializeT deser p data data_len dmem cells h eh).1 ≠ 0 →
      ((ffi_bridge_deserializeT deser p data data_len dmem cells h eh).2.2.2.mem
        (ffi_bridge_deserializeT deser p data data_len dmem cells h eh).1).2 =
        Site.generatedBody →
      data = 0 ∧
      ((ffi_bridge_deserializeT deser p data data_len dmem cells h eh).2.2.2.mem
        (ffi_bridge_deserializeT deser p data data_len dmem cells h eh).1).1 =
        SignalFfiError.NullPointer) := by
  refine ⟨?_, ?_, ?_⟩
  · intro p h eh
    rfl
  · intro body obj out out_len h cells bh eh hnz
    by_cases hobj : obj = 0
    · simp [ffi_bridge_get_bytearrayT, native_handle_castT, hobj,
        run_ffi_safeT, toWorkT, Heap.alloc]
    · by_cases hnull : out = 0 ∨ out_len = 0
      · simp [ffi_bridge_get_bytearrayT, native_handle_castT, hobj,
          write_bytearray_toT, hnull, run_ffi_safeT, toWorkT, Heap.alloc]
      · cases hb : body (h.mem obj) with
        | error e =>
          simp [ffi_bridge_get_bytearrayT, native_handle_castT, hobj,
            write_bytearray_toT, hnull, hb, run_ffi_safeT, toWorkT, Heap.alloc]
        | ok v =>
          exfalso
          apply hnz
          simp [ffi_bridge_get_bytearrayT, native_handle_castT, hobj,
            write_bytearray_toT, hnull, hb, run_ffi_safeT, toWorkT, Heap.alloc]
  · intro deser p data data_len dmem cells h eh hnz htag
    by_cases hd : data = 0
    · refine ⟨hd, ?_⟩
      simp [ffi_bridge_deserializeT, hd, run_ffi_safeT, toWorkT, Heap.alloc]
    · exfalso
      by_cases hp : p = 0
      · simp [ffi_bridge_deserializeT, hd, box_objectT, hp, run_ffi_safeT,
          toWorkT, Heap.alloc] at htag
      · cases hb : deser (from_raw_parts dmem data data_len) with
        | error e =>
          simp [ffi_bridge_deserializeT, hd, box_objectT, hp, hb,
            run_ffi_safeT, toWorkT, Heap.alloc] at htag
        | ok o =>
          apply hnz
          simp [ffi_bridge_deserializeT, hd, box_objectT, hp, hb,
            run_ffi_safeT, toWorkT, Heap.alloc]

/-- Witness for the amended C8 at a concrete destroy call and a concrete
get-byte-array call with a null handle. -/
theorem boundary_error_construction_sites_witness :
    (ffi_bridge_destroyT 4 (⟨4, fun _ => (0 : Nat), [4]⟩ : Heap Nat)
      ⟨0, fun _ => (.NullPointer, .wrapper), []⟩).1 = 0 ∧
    ((ffi_bridge_get_bytearrayT (fun n => .ok [n]) 0 2 3
      (⟨0, fun _ => (0 : Nat), []⟩ : Heap Nat) (fun _ => 0)
      ⟨0, fun _ => [], []⟩ ⟨0, fun _ => (.NullPointer, .wrapper), []⟩).2.2.2.mem
      (ffi_bridge_get_bytearrayT (fun n => .ok [n]) 0 2 3
        (⟨0, fun _ => (0 : Nat), []⟩ : Heap Nat) (fun _ => 0)
        ⟨0, fun _ => [], []⟩
        ⟨0, fun _ => (.NullPointer, .wrapper), []⟩).1).2 ≠
      Site.generatedBody := by
  have h := @boundary_error_construction_sites Nat
  exact ⟨h.1 4 ⟨4, fun _ => (0 : Nat), [4]⟩ ⟨0, fun _ => (.NullPointer, .wrapper), []⟩,
    h.2.1 (fun n => .ok [n]) 0 2 3 ⟨0, fun _ => (0 : Nat), []⟩ (fun _ => 0)
      ⟨0, fun _ => [], []⟩ ⟨0, fun _ => (.NullPointer, .wrapper), []⟩ (by decide)⟩
